import Mathlib

/-!
Shallow embedding of the reversible (invertible-coupling) transformer engine
implemented in onmt/models/multilingual_translator/reversible_transformers.py.

Tensors are modelled as exact rational scalars (the properties are stated in
exact arithmetic, modulo floating-point reassociation).  The attention and
feed-forward numeric kernels are opaque differentiable collaborators: each is
a record holding its forward value function (which may consume
pseudo-randomness, e.g. for dropout, so it takes the generator state active at
call time), the vector-Jacobian product that autograd propagates to its input
when the recorded forward is replayed, and the way running it advances the
global generator state.
-/

/-- Process-wide pseudo-random generator state: the host (cpu) generator plus
the per-device (gpu) generator states, as captured by torch.get_rng_state and
torch.utils.checkpoint.get_device_states. -/
structure RNGState where
  cpu : Nat
  devices : List Nat
deriving DecidableEq

/-- Opaque self-attention sub-transform (RelativeSelfAttention): input,
position embeddings, optional key-padding mask, optional attention mask and
the generator state at call time give (output, coverage).  vjp is the gradient
autograd propagates back to the input when the transform is replayed under the
same generator state and the given upstream gradient; adv is how a run
advances the global generator. -/
structure AttnTransform where
  f : ℚ → ℚ → Option ℚ → Option ℚ → RNGState → ℚ × ℚ
  vjp : ℚ → ℚ → Option ℚ → Option ℚ → RNGState → ℚ → ℚ
  adv : RNGState → RNGState

/-- Opaque feed-forward sub-transform (FeedForward). -/
structure FFTransform where
  f : ℚ → RNGState → ℚ
  vjp : ℚ → RNGState → ℚ → ℚ
  adv : RNGState → RNGState

/-- Opaque cross-attention sub-transform (SourceAttention): input, context,
optional attention mask, generator state give (output, coverage).  vjpIn /
vjpCtx are the gradients autograd propagates to the input and to the context
respectively. -/
structure SrcAttnTransform where
  f : ℚ → ℚ → Option ℚ → RNGState → ℚ × ℚ
  vjpIn : ℚ → ℚ → Option ℚ → RNGState → ℚ → ℚ
  vjpCtx : ℚ → ℚ → Option ℚ → RNGState → ℚ → ℚ
  adv : RNGState → RNGState

/-- torch.random.fork_rng combined with torch.set_rng_state /
set_device_states, as used around every replay in backward_pass: save the
current global generator state, install the snapshot, run the computation
under it, and restore the saved state on exit.  Returns the computed value
and the global generator state after the block. -/
def forkRngRun {α : Type} (snap : RNGState) (run : RNGState → α × RNGState)
    (g : RNGState) : α × RNGState :=
  let saved := g
  let res := run snap
  (res.1, saved)

/-- The coupling layer of the reversible encoder: a self-attention
sub-transform F and a feed-forward sub-transform G. -/
structure ReversibleTransformerEncoderLayer where
  self_attn : AttnTransform
  feedforward : FFTransform

/-- Per-layer RNG snapshots stored by _init_attention_seed (attn_cpu_state,
attn_gpu_states) and _init_feedforward_seed (ffn_cpu_state, ffn_gpu_states). -/
structure EncSeeds where
  attn_state : RNGState
  ffn_state : RNGState
deriving DecidableEq

/-- Result of ReversibleTransformerEncoderLayer.forward: the output pair
(y1, y2), the RNG snapshots the layer retains, and the advanced global
generator state. -/
structure EncFwdResult where
  y1 : ℚ
  y2 : ℚ
  seeds : EncSeeds
  rng : RNGState

/-- ReversibleTransformerEncoderLayer.forward: snapshot the generator state,
z1 = F(x2, pos, mask); y1 = z1 + x1; snapshot again; z2 = G(y1); y2 = z2 + x2;
return (y1, y2).  The snapshots are taken immediately before each
sub-transform and each sub-transform runs under the state just snapshotted. -/
def encLayerForward (L : ReversibleTransformerEncoderLayer) (x1 x2 pos : ℚ)
    (attn_mask : Option ℚ) (rng : RNGState) : EncFwdResult :=
  let attnSeed := rng
  let z1 := (L.self_attn.f x2 pos attn_mask none rng).1
  let rng1 := L.self_attn.adv rng
  let y1 := z1 + x1
  let ffnSeed := rng1
  let z2 := L.feedforward.f y1 rng1
  let rng2 := L.feedforward.adv rng1
  let y2 := z2 + x2
  ⟨y1, y2, ⟨attnSeed, ffnSeed⟩, rng2⟩

/-- Result of ReversibleTransformerEncoderLayer.backward_pass: the
reconstructed input pair, the propagated gradient pair, and the global
generator state after the call. -/
structure EncBwdResult where
  x1 : ℚ
  x2 : ℚ
  dx1 : ℚ
  dx2 : ℚ
  rng : RNGState

/-- ReversibleTransformerEncoderLayer.backward_pass: replay G under the
feed-forward snapshot inside a fork, invert x2 = y2 - G(y1), propagate
dx1 = dy1 + y1.grad; then replay F under the attention snapshot inside a
fork, invert x1 = y1 - F(x2), propagate dx2 = dy2 + x2.grad. -/
def encBackwardPass (L : ReversibleTransformerEncoderLayer) (s : EncSeeds)
    (y1 y2 dy1 dy2 pos : ℚ) (attn_mask : Option ℚ) (g : RNGState) : EncBwdResult :=
  let fork1 := forkRngRun s.ffn_state (fun r => (L.feedforward.f y1 r, L.feedforward.adv r)) g
  let gy1 := fork1.1
  let g1 := fork1.2
  let x2 := y2 - gy1
  let dx1 := dy1 + L.feedforward.vjp y1 s.ffn_state dy2
  let fork2 := forkRngRun s.attn_state
      (fun r => ((L.self_attn.f x2 pos attn_mask none r).1, L.self_attn.adv r)) g1
  let fx2 := fork2.1
  let g2 := fork2.2
  let x1 := y1 - fx2
  let dx2 := dy2 + L.self_attn.vjp x2 pos attn_mask none s.attn_state dx1
  ⟨x1, x2, dx1, dx2, g2⟩

/-- Result of running the whole encoder layer stack forward: the two final
streams, the per-layer seeds in layer order, the trace of the input pair that
entered each layer (a ghost output used to state the boundary-reconstruction
property), and the advanced generator state. -/
structure EncStackFwdResult where
  s1 : ℚ
  s2 : ℚ
  seeds : List EncSeeds
  trace : List (ℚ × ℚ)
  rng : RNGState

/-- The forward loop of ReversibleEncoderFunction.forward over the layers. -/
def encStackForward (layers : List ReversibleTransformerEncoderLayer)
    (p : ℚ × ℚ) (pos : ℚ) (attn_mask : Option ℚ) (rng : RNGState) : EncStackFwdResult :=
  match layers with
  | [] => ⟨p.1, p.2, [], [], rng⟩
  | L :: rest =>
    let r := encLayerForward L p.1 p.2 pos attn_mask rng
    let tail := encStackForward rest (r.y1, r.y2) pos attn_mask r.rng
    ⟨tail.s1, tail.s2, r.seeds :: tail.seeds, p :: tail.trace, tail.rng⟩

/-- Result of running the whole encoder layer stack backward: the
reconstructed pair after the last processed (first) layer, the final gradient
pair, the trace of reconstructed input pairs in processing order (ghost), and
the global generator state. -/
structure EncStackBwdResult where
  x1 : ℚ
  x2 : ℚ
  dx1 : ℚ
  dx2 : ℚ
  trace : List (ℚ × ℚ)
  rng : RNGState

/-- The loop `for layer in layers[::-1]` of ReversibleEncoderFunction.backward,
over the layers paired with their stored seeds: the deeper (later) layers are
processed first, so the recursion handles the suffix before applying the head
layer's backward_pass. -/
def encStackBackward (items : List (ReversibleTransformerEncoderLayer × EncSeeds))
    (p d : ℚ × ℚ) (pos : ℚ) (attn_mask : Option ℚ) (g : RNGState) : EncStackBwdResult :=
  match items with
  | [] => ⟨p.1, p.2, d.1, d.2, [], g⟩
  | (L, s) :: rest =>
    let later := encStackBackward rest p d pos attn_mask g
    let b := encBackwardPass L s later.x1 later.x2 later.dx1 later.dx2 pos attn_mask later.rng
    ⟨b.x1, b.x2, b.dx1, b.dx2, later.trace ++ [(b.x1, b.x2)], b.rng⟩

/-- What ctx.save_for_backward retains in ReversibleEncoderFunction.forward:
the final pair (first_input, second_input) plus the per-layer seeds living on
the layer modules. -/
structure EncCtx where
  first : ℚ
  second : ℚ
  seeds : List EncSeeds

/-- Result of ReversibleEncoderFunction.forward. -/
structure RevEncFwdOut where
  output : ℚ
  ctx : EncCtx
  trace : List (ℚ × ℚ)
  rng : RNGState

/-- ReversibleEncoderFunction.forward: duplicate the hidden state into the two
streams, run the layer stack under torch.no_grad (modelled as pure value
computation), save the final pair and per-layer seeds for backward, and return
the average of the two final streams (output = first + second, then
output.div_(2)). -/
def reversibleEncoderForward (layers : List ReversibleTransformerEncoderLayer)
    (hidden_states pos : ℚ) (attn_mask : Option ℚ) (rng : RNGState) : RevEncFwdOut :=
  let r := encStackForward layers (hidden_states, hidden_states) pos attn_mask rng
  ⟨(r.s1 + r.s2) / 2, ⟨r.s1, r.s2, r.seeds⟩, r.trace, r.rng⟩

/-- Result of ReversibleEncoderFunction.backward. -/
structure RevEncBwdOut where
  grad_hidden_states : ℚ
  x1 : ℚ
  x2 : ℚ
  trace : List (ℚ × ℚ)
  rng : RNGState

/-- ReversibleEncoderFunction.backward: grad_output.mul_(0.5), both stream
gradients start as that same halved gradient, the layers' backward_pass runs
in reverse order, and the returned gradient is dx1 + dx2. -/
def reversibleEncoderBackward (layers : List ReversibleTransformerEncoderLayer)
    (ctx : EncCtx) (grad_output pos : ℚ) (attn_mask : Option ℚ) (g : RNGState) : RevEncBwdOut :=
  let gHalf := grad_output * (1/2)
  let r := encStackBackward (layers.zip ctx.seeds) (ctx.first, ctx.second)
      (gHalf, gHalf) pos attn_mask g
  ⟨r.dx1 + r.dx2, r.x1, r.x2, r.trace, r.rng⟩

/-- One step of the reverse-order encoder backward loop as a fold step:
state is ((x1, x2), (dx1, dx2), global rng). -/
def encBwdStep (pos : ℚ) (attn_mask : Option ℚ)
    (st : (ℚ × ℚ) × (ℚ × ℚ) × RNGState)
    (item : ReversibleTransformerEncoderLayer × EncSeeds) :
    (ℚ × ℚ) × (ℚ × ℚ) × RNGState :=
  let b := encBackwardPass item.1 item.2 st.1.1 st.1.2 st.2.1.1 st.2.1.2 pos attn_mask st.2.2
  ((b.x1, b.x2), (b.dx1, b.dx2), b.rng)

/-- Reference formulation of the encoder backward loop: a left fold of the
per-layer backward step over the reversed (layer, seeds) list, which is
literally the iteration order of `for layer in layers[::-1]` and visits each
layer exactly once. -/
def encBackwardFoldRev (items : List (ReversibleTransformerEncoderLayer × EncSeeds))
    (p d : ℚ × ℚ) (pos : ℚ) (attn_mask : Option ℚ) (g : RNGState) :
    (ℚ × ℚ) × (ℚ × ℚ) × RNGState :=
  items.reverse.foldl (encBwdStep pos attn_mask) (p, d, g)

/-- The coupling layer of the reversible decoder: self-attention F,
feed-forward G1, cross-attention H reading the shared context, and
feed-forward G2.  ignore_source is recorded from the configuration; the
constructor aborts when it is set, so a constructed layer always carries a
cross-attention sub-transform. -/
structure ReversibleTransformerDecoderLayer where
  ignore_source : Bool
  self_attention : AttnTransform
  feed_forward_first : FFTransform
  src_attention : SrcAttnTransform
  feed_forward_second : FFTransform

/-- The configuration options consulted by
ReversibleTransformerDecoderLayer.__init__: the ignore_source flag and the
(opaque) sub-transforms the constructor would install. -/
structure DecOpt where
  ignore_source : Bool
  selfAttn : AttnTransform
  ff1 : FFTransform
  srcAttn : SrcAttnTransform
  ff2 : FFTransform

/-- ReversibleTransformerDecoderLayer.__init__: `assert not self.ignore_source`
fails fatally at construction time when the flag is set; otherwise the four
sub-transforms are installed (src_attention is built exactly because the flag
is unset). -/
def mkReversibleTransformerDecoderLayer (opt : DecOpt) :
    Except String ReversibleTransformerDecoderLayer :=
  if opt.ignore_source then
    Except.error "AssertionError: assert not self.ignore_source"
  else
    Except.ok ⟨opt.ignore_source, opt.selfAttn, opt.ff1, opt.srcAttn, opt.ff2⟩

/-- Per-layer RNG snapshots stored by _init_attention_seed,
_init_feedforward1_seed, _init_src_attention_seed and _init_feedforward2_seed. -/
structure DecSeeds where
  attn_state : RNGState
  ffn1_state : RNGState
  src_attn_state : RNGState
  ffn2_state : RNGState
deriving DecidableEq

/-- Result of ReversibleTransformerDecoderLayer.forward: the output pair, the
coverage produced by the cross-attention sub-transform, the retained RNG
snapshots, and the advanced global generator state. -/
structure DecFwdResult where
  y1 : ℚ
  y2 : ℚ
  coverage_src : ℚ
  seeds : DecSeeds
  rng : RNGState

/-- ReversibleTransformerDecoderLayer.forward (run under torch.no_grad):
snapshot; f_x2 = F(x2); z1 = f_x2 + x1; snapshot; g_z1 = G1(z1);
z2 = x2 + g_z1; snapshot; (h_z2, coverage_src) = H(z2, context); y1 = z1 + h_z2;
snapshot; k_y1 = G2(y1); y2 = z2 + k_y1; return (y1, y2, coverage_src). -/
def decLayerForward (L : ReversibleTransformerDecoderLayer)
    (x1 x2 pos context : ℚ) (mask_tgt mask_src : Option ℚ) (rng : RNGState) : DecFwdResult :=
  let attnSeed := rng
  let f_x2 := (L.self_attention.f x2 pos none mask_tgt rng).1
  let rng1 := L.self_attention.adv rng
  let z1 := f_x2 + x1
  let ffn1Seed := rng1
  let g_z1 := L.feed_forward_first.f z1 rng1
  let rng2 := L.feed_forward_first.adv rng1
  let z2 := x2 + g_z1
  let srcSeed := rng2
  let hres := L.src_attention.f z2 context mask_src rng2
  let rng3 := L.src_attention.adv rng2
  let y1 := z1 + hres.1
  let ffn2Seed := rng3
  let k_y1 := L.feed_forward_second.f y1 rng3
  let rng4 := L.feed_forward_second.adv rng3
  let y2 := z2 + k_y1
  ⟨y1, y2, hres.2, ⟨attnSeed, ffn1Seed, srcSeed, ffn2Seed⟩, rng4⟩

/-- Result of ReversibleTransformerDecoderLayer.backward_pass: reconstructed
inputs, propagated gradients, this layer's gradient on the shared context
(context.grad after the cross-attention replay), and the global generator
state after the call. -/
structure DecBwdResult where
  x1 : ℚ
  x2 : ℚ
  dx1 : ℚ
  dx2 : ℚ
  grad_context : Option ℚ
  rng : RNGState

/-- ReversibleTransformerDecoderLayer.backward_pass: the four-stage inversion
in reverse sub-transform order (G2, H, G1, F), each replay inside a fork under
the matching snapshot.  The context is marked for gradient tracking before the
cross-attention replay and its accumulated gradient is extracted immediately
after it. -/
def decBackwardPass (L : ReversibleTransformerDecoderLayer) (s : DecSeeds)
    (y1 y2 dy1 dy2 pos context : ℚ) (mask_tgt mask_src : Option ℚ)
    (g : RNGState) : DecBwdResult :=
  let fork1 := forkRngRun s.ffn2_state
      (fun r => (L.feed_forward_second.f y1 r, L.feed_forward_second.adv r)) g
  let k_y1 := fork1.1
  let g1 := fork1.2
  let z2 := y2 - k_y1
  let dz1 := dy1 + L.feed_forward_second.vjp y1 s.ffn2_state dy2
  let fork2 := forkRngRun s.src_attn_state
      (fun r => ((L.src_attention.f z2 context mask_src r).1, L.src_attention.adv r)) g1
  let h_z2 := fork2.1
  let g2 := fork2.2
  let z1 := y1 - h_z2
  let dz2 := dy2 + L.src_attention.vjpIn z2 context mask_src s.src_attn_state dz1
  let grad_context := some (L.src_attention.vjpCtx z2 context mask_src s.src_attn_state dz1)
  let fork3 := forkRngRun s.ffn1_state
      (fun r => (L.feed_forward_first.f z1 r, L.feed_forward_first.adv r)) g2
  let g_z1 := fork3.1
  let g3 := fork3.2
  let x2 := z2 - g_z1
  let dx1 := dz1 + L.feed_forward_first.vjp z1 s.ffn1_state dz2
  let fork4 := forkRngRun s.attn_state
      (fun r => ((L.self_attention.f x2 pos none mask_tgt r).1, L.self_attention.adv r)) g3
  let f_x2 := fork4.1
  let g4 := fork4.2
  let x1 := z1 - f_x2
  let dx2 := dz2 + L.self_attention.vjp x2 pos none mask_tgt s.attn_state dx1
  ⟨x1, x2, dx1, dx2, grad_context, g4⟩

/-- Result of running the whole decoder layer stack forward. -/
structure DecStackFwdResult where
  s1 : ℚ
  s2 : ℚ
  coverages : List ℚ
  seeds : List DecSeeds
  trace : List (ℚ × ℚ)
  rng : RNGState

/-- The forward loop of ReversibleDecoderFunction.forward over the layers,
also collecting the per-layer coverages. -/
def decStackForward (layers : List ReversibleTransformerDecoderLayer)
    (p : ℚ × ℚ) (pos context : ℚ) (mask_tgt mask_src : Option ℚ)
    (rng : RNGState) : DecStackFwdResult :=
  match layers with
  | [] => ⟨p.1, p.2, [], [], [], rng⟩
  | L :: rest =>
    let r := decLayerForward L p.1 p.2 pos context mask_tgt mask_src rng
    let tail := decStackForward rest (r.y1, r.y2) pos context mask_tgt mask_src r.rng
    ⟨tail.s1, tail.s2, r.coverage_src :: tail.coverages, r.seeds :: tail.seeds,
     p :: tail.trace, tail.rng⟩

/-- The grad_context accumulation of ReversibleDecoderFunction.backward: the
accumulator starts as None; the first contribution is installed as is; a later
non-None contribution is added in place; a None contribution is skipped. -/
def accumGradContext (acc contrib : Option ℚ) : Option ℚ :=
  match acc with
  | none => contrib
  | some a =>
    match contrib with
    | none => some a
    | some b => some (a + b)

/-- Result of running the whole decoder layer stack backward, with ghost
traces: ctxTrace lists each processed layer's grad_context contribution and
trace lists the reconstructed input pairs, both in processing order. -/
structure DecStackBwdResult where
  x1 : ℚ
  x2 : ℚ
  dx1 : ℚ
  dx2 : ℚ
  grad_context : Option ℚ
  ctxTrace : List (Option ℚ)
  trace : List (ℚ × ℚ)
  rng : RNGState

/-- The loop `for layer in layers[::-1]` of ReversibleDecoderFunction.backward:
deeper layers are processed first (the recursion handles the suffix before the
head layer), each layer receives the same detached context value, and its
grad_context contribution is folded into the accumulator. -/
def decStackBackward (items : List (ReversibleTransformerDecoderLayer × DecSeeds))
    (p d : ℚ × ℚ) (pos context : ℚ) (mask_tgt mask_src : Option ℚ)
    (g : RNGState) : DecStackBwdResult :=
  match items with
  | [] => ⟨p.1, p.2, d.1, d.2, none, [], [], g⟩
  | (L, s) :: rest =>
    let later := decStackBackward rest p d pos context mask_tgt mask_src g
    let b := decBackwardPass L s later.x1 later.x2 later.dx1 later.dx2
        pos context mask_tgt mask_src later.rng
    ⟨b.x1, b.x2, b.dx1, b.dx2, accumGradContext later.grad_context b.grad_context,
     later.ctxTrace ++ [b.grad_context], later.trace ++ [(b.x1, b.x2)], b.rng⟩
/-- What ctx.save_for_backward retains in ReversibleDecoderFunction.forward:
the final pair, the shared context, and the per-layer seeds on the modules. -/
structure DecCtx where
  x1 : ℚ
  x2 : ℚ
  context : ℚ
  seeds : List DecSeeds

/-- Result of ReversibleDecoderFunction.forward. -/
structure RevDecFwdOut where
  output : ℚ
  coverages : List ℚ
  ctx : DecCtx
  trace : List (ℚ × ℚ)
  rng : RNGState

/-- ReversibleDecoderFunction.forward: duplicate the hidden state into the two
streams, run the layer stack (under torch.no_grad inside each layer), save the
final pair, context and seeds, and return output = x1 + x2 followed by
output.mul_(0.5), together with the stacked coverages. -/
def reversibleDecoderForward (layers : List ReversibleTransformerDecoderLayer)
    (hidden_states pos context : ℚ) (tgt_mask src_mask : Option ℚ)
    (rng : RNGState) : RevDecFwdOut :=
  let r := decStackForward layers (hidden_states, hidden_states) pos context tgt_mask src_mask rng
  ⟨(r.s1 + r.s2) * (1/2), r.coverages, ⟨r.s1, r.s2, context, r.seeds⟩, r.trace, r.rng⟩

/-- Result of ReversibleDecoderFunction.backward. -/
structure RevDecBwdOut where
  grad_input : ℚ
  grad_context : Option ℚ
  x1 : ℚ
  x2 : ℚ
  ctxTrace : List (Option ℚ)
  trace : List (ℚ × ℚ)
  rng : RNGState

/-- ReversibleDecoderFunction.backward: grad_hidden_states.mul_(0.5), both
stream gradients start as that same halved gradient, the layers run backward
in reverse order with grad_context accumulated across them, and the returned
input gradient is dx1 + dx2. -/
def reversibleDecoderBackward (layers : List ReversibleTransformerDecoderLayer)
    (ctx : DecCtx) (grad_hidden_states pos : ℚ) (tgt_mask src_mask : Option ℚ)
    (g : RNGState) : RevDecBwdOut :=
  let gHalf := grad_hidden_states * (1/2)
  let r := decStackBackward (layers.zip ctx.seeds) (ctx.x1, ctx.x2) (gHalf, gHalf)
      pos ctx.context tgt_mask src_mask g
  ⟨r.dx1 + r.dx2, r.grad_context, r.x1, r.x2, r.ctxTrace, r.trace, r.rng⟩

/-- One step of the reverse-order decoder backward loop as a fold step:
state is ((x1, x2), (dx1, dx2), grad_context accumulator, global rng). -/
def decBwdStep (pos context : ℚ) (mask_tgt mask_src : Option ℚ)
    (st : (ℚ × ℚ) × (ℚ × ℚ) × Option ℚ × RNGState)
    (item : ReversibleTransformerDecoderLayer × DecSeeds) :
    (ℚ × ℚ) × (ℚ × ℚ) × Option ℚ × RNGState :=
  let b := decBackwardPass item.1 item.2 st.1.1 st.1.2 st.2.1.1 st.2.1.2
      pos context mask_tgt mask_src st.2.2.2
  ((b.x1, b.x2), (b.dx1, b.dx2), accumGradContext st.2.2.1 b.grad_context, b.rng)

/-- Reference formulation of the decoder backward loop: a left fold of the
per-layer backward step over the reversed (layer, seeds) list, starting from
an empty (None) grad_context accumulator. -/
def decBackwardFoldRev (items : List (ReversibleTransformerDecoderLayer × DecSeeds))
    (p d : ℚ × ℚ) (pos context : ℚ) (mask_tgt mask_src : Option ℚ) (g : RNGState) :
    (ℚ × ℚ) × (ℚ × ℚ) × Option ℚ × RNGState :=
  items.reverse.foldl (decBwdStep pos context mask_tgt mask_src) (p, d, none, g)

/-- A minimal tensor heap used to model in-place tensor mutation: a tensor
reference is an index into a store of scalar values. -/
def TensorStore : Type := Nat → ℚ

/-- Write one cell of the store (an in-place tensor operation). -/
def storeWrite (st : TensorStore) (r : Nat) (v : ℚ) : TensorStore :=
  fun i => if i = r then v else st i

/-- The prologue shared by ReversibleEncoderFunction.backward and
ReversibleDecoderFunction.backward: grad_output.mul_(0.5) mutates the
caller-supplied tensor in place, and the two stream gradients are then two
references to that same mutated tensor (first_grad_output, second_grad_output
= grad_output, grad_output). -/
def gradOutputPrologue (st : TensorStore) (grad_output : Nat) :
    TensorStore × Nat × Nat :=
  let st1 := storeWrite st grad_output (st grad_output * (1/2))
  (st1, grad_output, grad_output)

/-- ReversibleEncoderFunction.backward at the store level: the in-place
prologue runs first; every tensor later produced by backward_pass is a fresh
tensor, so the store is written only at the incoming gradient reference. -/
def reversibleEncoderBackwardStore (layers : List ReversibleTransformerEncoderLayer)
    (ctx : EncCtx) (st : TensorStore) (grad_output : Nat) (pos : ℚ)
    (attn_mask : Option ℚ) (g : RNGState) : ℚ × TensorStore :=
  let pro := gradOutputPrologue st grad_output
  let st1 := pro.1
  let r := encStackBackward (layers.zip ctx.seeds) (ctx.first, ctx.second)
      (st1 pro.2.1, st1 pro.2.2) pos attn_mask g
  (r.dx1 + r.dx2, st1)

/-- ReversibleDecoderFunction.backward at the store level. -/
def reversibleDecoderBackwardStore (layers : List ReversibleTransformerDecoderLayer)
    (ctx : DecCtx) (st : TensorStore) (grad_hidden_states : Nat) (pos : ℚ)
    (tgt_mask src_mask : Option ℚ) (g : RNGState) : ℚ × Option ℚ × TensorStore :=
  let pro := gradOutputPrologue st grad_hidden_states
  let st1 := pro.1
  let r := decStackBackward (layers.zip ctx.seeds) (ctx.x1, ctx.x2)
      (st1 pro.2.1, st1 pro.2.2) pos ctx.context tgt_mask src_mask g
  (r.dx1 + r.dx2, r.grad_context, st1)

/-- A concrete linear congruential generator step, used only by the sample
transforms below to exercise the definitions on closed inputs. -/
def lcgNext (n : Nat) : Nat := (n * 1103515245 + 12345) % 4294967296

/-- Advance every generator in the state by one LCG step. -/
def advanceRNG (r : RNGState) : RNGState :=
  ⟨lcgNext r.cpu, r.devices.map lcgNext⟩

/-- A sample stochastic feed-forward transform: doubles its input and applies
an inverted-dropout-style keep/drop decision drawn from the cpu generator. -/
def sampleFF : FFTransform where
  f := fun x r => if lcgNext r.cpu % 2 = 0 then 2 * x else 0
  vjp := fun _ r gOut => if lcgNext r.cpu % 2 = 0 then 2 * gOut else 0
  adv := advanceRNG

/-- A sample self-attention transform mixing input, position info and a value
drawn from the cpu generator. -/
def sampleAttn : AttnTransform where
  f := fun x pos _ _ r => (x + pos + ((lcgNext r.cpu % 5 : Nat) : ℚ), x)
  vjp := fun _ _ _ _ _ gOut => gOut
  adv := advanceRNG

/-- A sample cross-attention transform mixing input, context and a value drawn
from the cpu generator. -/
def sampleSrcAttn : SrcAttnTransform where
  f := fun x ctx _ r => (x + ctx + ((lcgNext r.cpu % 3 : Nat) : ℚ), ctx)
  vjpIn := fun _ _ _ _ gOut => gOut
  vjpCtx := fun _ ctx _ _ gOut => ctx + gOut
  adv := advanceRNG

/-- A sample encoder coupling layer. -/
def sampleEncLayer : ReversibleTransformerEncoderLayer :=
  ⟨sampleAttn, sampleFF⟩

/-- A sample decoder coupling layer (ignore_source unset). -/
def sampleDecLayer : ReversibleTransformerDecoderLayer :=
  ⟨false, sampleAttn, sampleFF, sampleSrcAttn, sampleFF⟩

/-- A sample decoder configuration with ignore_source unset. -/
def sampleDecOpt : DecOpt :=
  ⟨false, sampleAttn, sampleFF, sampleSrcAttn, sampleFF⟩

/-- The same configuration with ignore_source set. -/
def sampleDecOptIgnore : DecOpt :=
  ⟨true, sampleAttn, sampleFF, sampleSrcAttn, sampleFF⟩

/-- A sample initial generator state. -/
def sampleRNG : RNGState := ⟨42, [7, 11]⟩

/-- A sample store holding value i + 1 at reference i. -/
def sampleStore : TensorStore := fun i => (i : ℚ) + 1
theorem encLayer_reconstruct (L : ReversibleTransformerEncoderLayer)
    (x1 x2 pos : ℚ) (attn_mask : Option ℚ) (rng : RNGState) (dy1 dy2 : ℚ) (g : RNGState) :
    (encBackwardPass L (encLayerForward L x1 x2 pos attn_mask rng).seeds
        (encLayerForward L x1 x2 pos attn_mask rng).y1
        (encLayerForward L x1 x2 pos attn_mask rng).y2
        dy1 dy2 pos attn_mask g).x1 = x1 ∧
    (encBackwardPass L (encLayerForward L x1 x2 pos attn_mask rng).seeds
        (encLayerForward L x1 x2 pos attn_mask rng).y1
        (encLayerForward L x1 x2 pos attn_mask rng).y2
        dy1 dy2 pos attn_mask g).x2 = x2 ∧
    (encBackwardPass L (encLayerForward L x1 x2 pos attn_mask rng).seeds
        (encLayerForward L x1 x2 pos attn_mask rng).y1
        (encLayerForward L x1 x2 pos attn_mask rng).y2
        dy1 dy2 pos attn_mask g).rng = g := by
  simp [encLayerForward, encBackwardPass, forkRngRun]

theorem encStack_reconstruct (layers : List ReversibleTransformerEncoderLayer)
    (p : ℚ × ℚ) (pos : ℚ) (attn_mask : Option ℚ) (rng : RNGState) (d : ℚ × ℚ) (g : RNGState) :
    (encStackBackward (layers.zip (encStackForward layers p pos attn_mask rng).seeds)
        ((encStackForward layers p pos attn_mask rng).s1,
         (encStackForward layers p pos attn_mask rng).s2) d pos attn_mask g).x1 = p.1 ∧
    (encStackBackward (layers.zip (encStackForward layers p pos attn_mask rng).seeds)
        ((encStackForward layers p pos attn_mask rng).s1,
         (encStackForward layers p pos attn_mask rng).s2) d pos attn_mask g).x2 = p.2 ∧
    (encStackBackward (layers.zip (encStackForward layers p pos attn_mask rng).seeds)
        ((encStackForward layers p pos attn_mask rng).s1,
         (encStackForward layers p pos attn_mask rng).s2) d pos attn_mask g).trace
      = (encStackForward layers p pos attn_mask rng).trace.reverse ∧
    (encStackBackward (layers.zip (encStackForward layers p pos attn_mask rng).seeds)
        ((encStackForward layers p pos attn_mask rng).s1,
         (encStackForward layers p pos attn_mask rng).s2) d pos attn_mask g).rng = g := by
  induction layers generalizing p rng d g with
  | nil => simp [encStackForward, encStackBackward]
  | cons L rest ih =>
    obtain ⟨ih1, ih2, ih3, ih4⟩ :=
      ih ((encLayerForward L p.1 p.2 pos attn_mask rng).y1,
          (encLayerForward L p.1 p.2 pos attn_mask rng).y2)
        (encLayerForward L p.1 p.2 pos attn_mask rng).rng d g
    simp only at ih1 ih2
    obtain ⟨hb1, hb2, hb3⟩ := encLayer_reconstruct L p.1 p.2 pos attn_mask rng
      (encStackBackward
        (rest.zip (encStackForward rest
            ((encLayerForward L p.1 p.2 pos attn_mask rng).y1,
             (encLayerForward L p.1 p.2 pos attn_mask rng).y2) pos attn_mask
            (encLayerForward L p.1 p.2 pos attn_mask rng).rng).seeds)
        ((encStackForward rest
            ((encLayerForward L p.1 p.2 pos attn_mask rng).y1,
             (encLayerForward L p.1 p.2 pos attn_mask rng).y2) pos attn_mask
            (encLayerForward L p.1 p.2 pos attn_mask rng).rng).s1,
         (encStackForward rest
            ((encLayerForward L p.1 p.2 pos attn_mask rng).y1,
             (encLayerForward L p.1 p.2 pos attn_mask rng).y2) pos attn_mask
            (encLayerForward L p.1 p.2 pos attn_mask rng).rng).s2) d pos attn_mask g).dx1
      (encStackBackward
        (rest.zip (encStackForward rest
            ((encLayerForward L p.1 p.2 pos attn_mask rng).y1,
             (encLayerForward L p.1 p.2 pos attn_mask rng).y2) pos attn_mask
            (encLayerForward L p.1 p.2 pos attn_mask rng).rng).seeds)
        ((encStackForward rest
            ((encLayerForward L p.1 p.2 pos attn_mask rng).y1,
             (encLayerForward L p.1 p.2 pos attn_mask rng).y2) pos attn_mask
            (encLayerForward L p.1 p.2 pos attn_mask rng).rng).s1,
         (encStackForward rest
            ((encLayerForward L p.1 p.2 pos attn_mask rng).y1,
             (encLayerForward L p.1 p.2 pos attn_mask rng).y2) pos attn_mask
            (encLayerForward L p.1 p.2 pos attn_mask rng).rng).s2) d pos attn_mask g).dx2 g
    simp only [List.zip] at ih1 ih2 ih3 ih4 hb1 hb2 hb3
    simp only [encStackForward, encStackBackward, List.zip_cons_cons, List.zip]
    rw [ih1, ih2, ih4]
    rw [hb1, hb2, hb3, ih3]
    simp

theorem encStackBackward_eq_foldRev
    (items : List (ReversibleTransformerEncoderLayer × EncSeeds))
    (p d : ℚ × ℚ) (pos : ℚ) (attn_mask : Option ℚ) (g : RNGState) :
    (((encStackBackward items p d pos attn_mask g).x1,
      (encStackBackward items p d pos attn_mask g).x2),
     ((encStackBackward items p d pos attn_mask g).dx1,
      (encStackBackward items p d pos attn_mask g).dx2),
     (encStackBackward items p d pos attn_mask g).rng)
      = encBackwardFoldRev items p d pos attn_mask g := by
  induction items generalizing p d g with
  | nil => simp [encStackBackward, encBackwardFoldRev]
  | cons it rest ih =>
    obtain ⟨L, s⟩ := it
    simp only [encBackwardFoldRev, List.reverse_cons, List.foldl_append,
      List.foldl_cons, List.foldl_nil]
    simp only [encBackwardFoldRev] at ih
    rw [← ih p d g]
    simp [encStackBackward, encBwdStep]

theorem decStackBackward_eq_foldRev
    (items : List (ReversibleTransformerDecoderLayer × DecSeeds))
    (p d : ℚ × ℚ) (pos context : ℚ) (mask_tgt mask_src : Option ℚ) (g : RNGState) :
    (((decStackBackward items p d pos context mask_tgt mask_src g).x1,
      (decStackBackward items p d pos context mask_tgt mask_src g).x2),
     ((decStackBackward items p d pos context mask_tgt mask_src g).dx1,
      (decStackBackward items p d pos context mask_tgt mask_src g).dx2),
     (decStackBackward items p d pos context mask_tgt mask_src g).grad_context,
     (decStackBackward items p d pos context mask_tgt mask_src g).rng)
      = decBackwardFoldRev items p d pos context mask_tgt mask_src g := by
  induction items generalizing p d g with
  | nil => simp [decStackBackward, decBackwardFoldRev]
  | cons it rest ih =>
    obtain ⟨L, s⟩ := it
    simp only [decBackwardFoldRev, List.reverse_cons, List.foldl_append,
      List.foldl_cons, List.foldl_nil]
    simp only [decBackwardFoldRev] at ih
    rw [← ih p d g]
    simp [decStackBackward, decBwdStep]

theorem decBackwardPass_gradContext_value (L : ReversibleTransformerDecoderLayer)
    (s : DecSeeds) (y1 y2 dy1 dy2 pos context : ℚ) (mask_tgt mask_src : Option ℚ)
    (g : RNGState) :
    ∃ w : ℚ, (decBackwardPass L s y1 y2 dy1 dy2 pos context mask_tgt mask_src g).grad_context
      = some w := by
  exact ⟨_, rfl⟩

theorem decStackBackward_gradContext_sum
    (items : List (ReversibleTransformerDecoderLayer × DecSeeds))
    (p d : ℚ × ℚ) (pos context : ℚ) (mask_tgt mask_src : Option ℚ) (g : RNGState) :
    ∃ vs : List ℚ,
      (decStackBackward items p d pos context mask_tgt mask_src g).ctxTrace = vs.map some ∧
      (decStackBackward items p d pos context mask_tgt mask_src g).grad_context
        = (if vs.isEmpty then none else some vs.sum) ∧
      vs.length = items.length := by
  induction items generalizing p d g with
  | nil => exact ⟨[], by simp [decStackBackward]⟩
  | cons it rest ih =>
    obtain ⟨L, s⟩ := it
    obtain ⟨vs, h1, h2, h3⟩ := ih p d g
    obtain ⟨w, hw⟩ := decBackwardPass_gradContext_value L s
      (decStackBackward rest p d pos context mask_tgt mask_src g).x1
      (decStackBackward rest p d pos context mask_tgt mask_src g).x2
      (decStackBackward rest p d pos context mask_tgt mask_src g).dx1
      (decStackBackward rest p d pos context mask_tgt mask_src g).dx2
      pos context mask_tgt mask_src
      (decStackBackward rest p d pos context mask_tgt mask_src g).rng
    refine ⟨vs ++ [w], ?_, ?_, ?_⟩
    · simp [decStackBackward, h1, hw]
    · rcases vs with _ | ⟨v, vt⟩
      · simp at h2
        simp [decStackBackward, h2, hw, accumGradContext]
      · simp at h2
        simp [decStackBackward, h2, hw, accumGradContext]
        ring
    · simp [h3]

/-- C1: for every encoder coupling layer, every output pair (y1, y2) its
forward step produced from inputs (x1, x2), and every incoming gradient pair,
backward_pass replays G under the feed-forward RNG snapshot and F under the
attention RNG snapshot and returns x2 = y2 - G(y1) and x1 = y1 - F(x2), which
equal the streams that entered the layer during forward (exact arithmetic);
consequently, for a whole stack, running Forward then Backward reconstructs
each layer's input streams at every layer boundary: the trace of reconstructed
pairs is the reversed trace of the forward input pairs, and the final
reconstructed pair is the stack's original input. -/
theorem C1_reversibility_identity :
    (∀ (L : ReversibleTransformerEncoderLayer) (x1 x2 pos : ℚ) (attn_mask : Option ℚ)
        (rng : RNGState) (dy1 dy2 : ℚ) (g : RNGState),
      let fwd := encLayerForward L x1 x2 pos attn_mask rng
      let bwd := encBackwardPass L fwd.seeds fwd.y1 fwd.y2 dy1 dy2 pos attn_mask g
      bwd.x2 = fwd.y2 - L.feedforward.f fwd.y1 fwd.seeds.ffn_state ∧
      bwd.x1 = fwd.y1 - (L.self_attn.f bwd.x2 pos attn_mask none fwd.seeds.attn_state).1 ∧
      bwd.x1 = x1 ∧ bwd.x2 = x2) ∧
    (∀ (layers : List ReversibleTransformerEncoderLayer) (p : ℚ × ℚ) (pos : ℚ)
        (attn_mask : Option ℚ) (rng : RNGState) (d : ℚ × ℚ) (g : RNGState),
      let fwd := encStackForward layers p pos attn_mask rng
      let bwd := encStackBackward (layers.zip fwd.seeds) (fwd.s1, fwd.s2) d pos attn_mask g
      bwd.trace = fwd.trace.reverse ∧ bwd.x1 = p.1 ∧ bwd.x2 = p.2) := by
  constructor
  · intro L x1 x2 pos attn_mask rng dy1 dy2 g
    refine ⟨rfl, rfl, ?_, ?_⟩
    · exact (encLayer_reconstruct L x1 x2 pos attn_mask rng dy1 dy2 g).1
    · exact (encLayer_reconstruct L x1 x2 pos attn_mask rng dy1 dy2 g).2.1
  · intro layers p pos attn_mask rng d g
    obtain ⟨h1, h2, h3, _⟩ := encStack_reconstruct layers p pos attn_mask rng d g
    exact ⟨h3, h1, h2⟩

/-- C2: the encoder coupling layer's forward step computes z = F(x2, pos,
mask) under the generator state snapshotted immediately before it, y1 = z +
x1, then g = G(y1) under the state snapshotted immediately before it (the
state right after F ran), y2 = g + x2, and returns (y1, y2); the retained
snapshots are exactly the state before F and the state before G.  The whole
stack is driven by ReversibleEncoderFunction.forward from a duplicated
initial stream pair with gradient tracking disabled (pure value computation
in this embedding), and what it saves for backward is exactly the final pair
and the per-layer seeds. -/
theorem C2_encoder_forward_step :
    (∀ (L : ReversibleTransformerEncoderLayer) (x1 x2 pos : ℚ) (attn_mask : Option ℚ)
        (rng : RNGState),
      let fwd := encLayerForward L x1 x2 pos attn_mask rng
      fwd.y1 = (L.self_attn.f x2 pos attn_mask none rng).1 + x1 ∧
      fwd.y2 = L.feedforward.f ((L.self_attn.f x2 pos attn_mask none rng).1 + x1)
          (L.self_attn.adv rng) + x2 ∧
      fwd.seeds.attn_state = rng ∧
      fwd.seeds.ffn_state = L.self_attn.adv rng ∧
      fwd.rng = L.feedforward.adv (L.self_attn.adv rng)) ∧
    (∀ (layers : List ReversibleTransformerEncoderLayer) (hidden_states pos : ℚ)
        (attn_mask : Option ℚ) (rng : RNGState),
      let out := reversibleEncoderForward layers hidden_states pos attn_mask rng
      let run := encStackForward layers (hidden_states, hidden_states) pos attn_mask rng
      out.ctx.first = run.s1 ∧ out.ctx.second = run.s2 ∧ out.ctx.seeds = run.seeds) := by
  constructor
  · intro L x1 x2 pos attn_mask rng
    exact ⟨rfl, rfl, rfl, rfl, rfl⟩
  · intro layers hidden_states pos attn_mask rng
    exact ⟨rfl, rfl, rfl⟩

/-- C3: the decoder coupling layer's forward step applies exactly the four
sub-transforms in the fixed order F (self-attention), G1 (feed-forward), H
(cross-attention), G2 (feed-forward), with residual coupling z1 = F(x2) + x1,
z2 = G1(z1) + x2, y1 = H(z2, context) + z1, y2 = G2(y1) + z2, snapshots the
generator state immediately before each sub-transform, and returns (y1, y2)
together with the coverage produced by H. -/
theorem C3_decoder_forward_step
    (L : ReversibleTransformerDecoderLayer) (x1 x2 pos context : ℚ)
    (mask_tgt mask_src : Option ℚ) (rng : RNGState) :
    let rng1 := L.self_attention.adv rng
    let rng2 := L.feed_forward_first.adv rng1
    let rng3 := L.src_attention.adv rng2
    let z1 := (L.self_attention.f x2 pos none mask_tgt rng).1 + x1
    let z2 := L.feed_forward_first.f z1 rng1 + x2
    let y1 := (L.src_attention.f z2 context mask_src rng2).1 + z1
    let y2 := L.feed_forward_second.f y1 rng3 + z2
    let fwd := decLayerForward L x1 x2 pos context mask_tgt mask_src rng
    fwd.y1 = y1 ∧ fwd.y2 = y2 ∧
    fwd.coverage_src = (L.src_attention.f z2 context mask_src rng2).2 ∧
    fwd.seeds.attn_state = rng ∧
    fwd.seeds.ffn1_state = rng1 ∧
    fwd.seeds.src_attn_state = rng2 ∧
    fwd.seeds.ffn2_state = rng3 ∧
    fwd.rng = L.feed_forward_second.adv rng3 := by
  refine ⟨?_, ?_, ?_, rfl, rfl, rfl, rfl, rfl⟩ <;>
    simp [decLayerForward, add_comm, add_left_comm]

/-- C4: both backward orchestrators give the two streams the initial gradient
grad/2 each (the merge was an average), invoke each coupling layer's backward
exactly once in strict reverse layer order (the reference reverse-order fold
over the layer list), and return as the gradient on the original input the
sum dx1 + dx2 of the two stream gradients obtained after the last-processed
(first) layer's reconstruction. -/
theorem C4_backward_orchestration :
    (∀ (layers : List ReversibleTransformerEncoderLayer) (ctx : EncCtx)
        (grad_output pos : ℚ) (attn_mask : Option ℚ) (g : RNGState),
      let fold := encBackwardFoldRev (layers.zip ctx.seeds) (ctx.first, ctx.second)
          (grad_output * (1/2), grad_output * (1/2)) pos attn_mask g
      (reversibleEncoderBackward layers ctx grad_output pos attn_mask g).grad_hidden_states
        = fold.2.1.1 + fold.2.1.2) ∧
    (∀ (layers : List ReversibleTransformerDecoderLayer) (ctx : DecCtx)
        (grad_hidden_states pos : ℚ) (tgt_mask src_mask : Option ℚ) (g : RNGState),
      let fold := decBackwardFoldRev (layers.zip ctx.seeds) (ctx.x1, ctx.x2)
          (grad_hidden_states * (1/2), grad_hidden_states * (1/2)) pos ctx.context
          tgt_mask src_mask g
      (reversibleDecoderBackward layers ctx grad_hidden_states pos tgt_mask src_mask g).grad_input
        = fold.2.1.1 + fold.2.1.2 ∧
      (reversibleDecoderBackward layers ctx grad_hidden_states pos tgt_mask src_mask g).grad_context
        = fold.2.2.1) := by
  constructor
  · intro layers ctx grad_output pos attn_mask g
    rw [← encStackBackward_eq_foldRev]
    exact rfl
  · intro layers ctx grad_hidden_states pos tgt_mask src_mask g
    rw [← decStackBackward_eq_foldRev]
    exact ⟨rfl, rfl⟩

/-- C5: for a decoder stack whose layers all read the same shared context,
the context gradient returned by backward equals the sum of the per-layer
context gradients (each layer's backward_pass receives the per-layer detached
context, marks it for gradient tracking around the cross-attention replay,
and hands back its own contribution); the accumulator starts empty (None), is
installed by the first processed layer, later contributions are added, and a
None contribution is skipped rather than summed. -/
theorem C5_context_gradient_accumulation :
    (∀ c : Option ℚ, accumGradContext none c = c) ∧
    (∀ a : ℚ, accumGradContext (some a) none = some a) ∧
    (∀ a b : ℚ, accumGradContext (some a) (some b) = some (a + b)) ∧
    (∀ (layers : List ReversibleTransformerDecoderLayer) (ctx : DecCtx)
        (grad_hidden_states pos : ℚ) (tgt_mask src_mask : Option ℚ) (g : RNGState),
      ∃ vs : List ℚ,
        (reversibleDecoderBackward layers ctx grad_hidden_states pos
            tgt_mask src_mask g).ctxTrace = vs.map some ∧
        vs.length = (layers.zip ctx.seeds).length ∧
        (reversibleDecoderBackward layers ctx grad_hidden_states pos
            tgt_mask src_mask g).grad_context
          = (if vs.isEmpty then none else some vs.sum)) := by
  refine ⟨fun c => rfl, fun a => rfl, fun a b => rfl, ?_⟩
  intro layers ctx grad_hidden_states pos tgt_mask src_mask g
  obtain ⟨vs, h1, h2, h3⟩ := decStackBackward_gradContext_sum (layers.zip ctx.seeds)
    (ctx.x1, ctx.x2) (grad_hidden_states * (1/2), grad_hidden_states * (1/2))
    pos ctx.context tgt_mask src_mask g
  exact ⟨vs, h1, h3, h2⟩

/-- C6: for every layer stack of depth at least 1 and every input, the merged
output returned by the forward orchestrator equals exactly
(stream1 + stream2) / 2 of the two final streams after the last coupling
layer, for the encoder (sum, then div_(2)) and the decoder (sum, then
mul_(0.5)) alike. -/
theorem C6_merge_invariant
    (eLayers : List ReversibleTransformerEncoderLayer) (hidden_states pos : ℚ)
    (attn_mask : Option ℚ) (rng : RNGState)
    (dLayers : List ReversibleTransformerDecoderLayer) (dHidden dPos dContext : ℚ)
    (tgt_mask src_mask : Option ℚ) (dRng : RNGState) :
    0 < eLayers.length → 0 < dLayers.length →
    (reversibleEncoderForward eLayers hidden_states pos attn_mask rng).output
      = ((encStackForward eLayers (hidden_states, hidden_states) pos attn_mask rng).s1
          + (encStackForward eLayers (hidden_states, hidden_states) pos attn_mask rng).s2) / 2 ∧
    (reversibleDecoderForward dLayers dHidden dPos dContext tgt_mask src_mask dRng).output
      = ((decStackForward dLayers (dHidden, dHidden) dPos dContext tgt_mask src_mask dRng).s1
          + (decStackForward dLayers (dHidden, dHidden) dPos dContext tgt_mask src_mask dRng).s2) / 2 := by
  intro _ _
  constructor
  · rfl
  · show (_ + _) * (1/2 : ℚ) = _
    ring

/-- Witness for C6 at a concrete one-layer encoder stack and one-layer
decoder stack. -/
theorem C6_merge_invariant_witness :
    0 < [sampleEncLayer].length ∧ 0 < [sampleDecLayer].length ∧
    ((reversibleEncoderForward [sampleEncLayer] 3 1 none sampleRNG).output
      = ((encStackForward [sampleEncLayer] (3, 3) 1 none sampleRNG).s1
          + (encStackForward [sampleEncLayer] (3, 3) 1 none sampleRNG).s2) / 2 ∧
     (reversibleDecoderForward [sampleDecLayer] 2 1 5 none none sampleRNG).output
      = ((decStackForward [sampleDecLayer] (2, 2) 1 5 none none sampleRNG).s1
          + (decStackForward [sampleDecLayer] (2, 2) 1 5 none none sampleRNG).s2) / 2) :=
  ⟨by decide, by decide,
   C6_merge_invariant [sampleEncLayer] 3 1 none sampleRNG
     [sampleDecLayer] 2 1 5 none none sampleRNG (by decide) (by decide)⟩

/-- C7: for every sub-transform and every captured RNG snapshot, running the
transform inside the restore-scoped fork yields the same output whatever the
ambient global generator state is, so two runs with the snapshot restored
produce bit-identical stochastic outputs; and the replays performed during
backward_pass under the matching snapshots reproduce exactly the stochastic
outputs computed during forward: the feed-forward replay value equals
y2 - x2 (forward's z2) and the attention replay value equals y1 - x1
(forward's z1). -/
theorem C7_dropout_determinism :
    (∀ (run : RNGState → ℚ × RNGState) (snap g1 g2 : RNGState),
      (forkRngRun snap run g1).1 = (forkRngRun snap run g2).1) ∧
    (∀ (L : ReversibleTransformerEncoderLayer) (x1 x2 pos : ℚ) (attn_mask : Option ℚ)
        (rng g : RNGState),
      let fwd := encLayerForward L x1 x2 pos attn_mask rng
      (forkRngRun fwd.seeds.ffn_state
          (fun r => (L.feedforward.f fwd.y1 r, L.feedforward.adv r)) g).1
        = fwd.y2 - x2 ∧
      (forkRngRun fwd.seeds.attn_state
          (fun r => ((L.self_attn.f x2 pos attn_mask none r).1, L.self_attn.adv r)) g).1
        = fwd.y1 - x1) := by
  constructor
  · intro run snap g1 g2
    rfl
  · intro L x1 x2 pos attn_mask rng g
    constructor <;> simp [encLayerForward, forkRngRun]

/-- C8: every RNG snapshot restore during backward is a scoped fork (save the
current global state, install the snapshot, run, restore on exit): the fork
returns the ambient generator state unchanged, and hence every backward_pass
call leaves the process-wide generator state exactly as it was before the
call, for the encoder and decoder coupling layers alike. -/
theorem C8_rng_restore_scoped :
    (∀ (run : RNGState → ℚ × RNGState) (snap g : RNGState),
      (forkRngRun snap run g).2 = g) ∧
    (∀ (L : ReversibleTransformerEncoderLayer) (s : EncSeeds) (y1 y2 dy1 dy2 pos : ℚ)
        (attn_mask : Option ℚ) (g : RNGState),
      (encBackwardPass L s y1 y2 dy1 dy2 pos attn_mask g).rng = g) ∧
    (∀ (L : ReversibleTransformerDecoderLayer) (s : DecSeeds)
        (y1 y2 dy1 dy2 pos context : ℚ) (mask_tgt mask_src : Option ℚ) (g : RNGState),
      (decBackwardPass L s y1 y2 dy1 dy2 pos context mask_tgt mask_src g).rng = g) :=
  ⟨fun _ _ _ => rfl, fun _ _ _ _ _ _ _ _ _ => rfl, fun _ _ _ _ _ _ _ _ _ _ _ => rfl⟩

/-- C9: constructing a decoder coupling layer with the ignore-source flag set
fails at construction time with the assertion error and is never silently
downgraded; for every configuration with the flag unset, construction
succeeds and the layer contains the cross-attention sub-transform. -/
theorem C9_ignore_source_fatal (opt : DecOpt) :
    (opt.ignore_source = true →
      mkReversibleTransformerDecoderLayer opt
        = Except.error "AssertionError: assert not self.ignore_source") ∧
    (opt.ignore_source = false →
      ∃ L : ReversibleTransformerDecoderLayer,
        mkReversibleTransformerDecoderLayer opt = Except.ok L ∧
        L.src_attention = opt.srcAttn ∧ L.ignore_source = false) := by
  constructor
  · intro h
    simp [mkReversibleTransformerDecoderLayer, h]
  · intro h
    exact ⟨⟨opt.ignore_source, opt.selfAttn, opt.ff1, opt.srcAttn, opt.ff2⟩,
      by simp [mkReversibleTransformerDecoderLayer, h], rfl, h⟩

/-- Witness for C9 at the sample configurations with the flag set and unset. -/
theorem C9_ignore_source_fatal_witness :
    (sampleDecOptIgnore.ignore_source = true ∧
      mkReversibleTransformerDecoderLayer sampleDecOptIgnore
        = Except.error "AssertionError: assert not self.ignore_source") ∧
    (sampleDecOpt.ignore_source = false ∧
      ∃ L : ReversibleTransformerDecoderLayer,
        mkReversibleTransformerDecoderLayer sampleDecOpt = Except.ok L ∧
        L.src_attention = sampleDecOpt.srcAttn ∧ L.ignore_source = false) :=
  ⟨⟨rfl, (C9_ignore_source_fatal sampleDecOptIgnore).1 rfl⟩,
   ⟨rfl, (C9_ignore_source_fatal sampleDecOpt).2 rfl⟩⟩

/-- C10: the backward orchestrators mutate the incoming gradient tensor in
place: the prologue scales the caller-supplied gradient cell by 0.5 with an
in-place write and hands back the very same reference twice as the two
initial stream gradients (not two independent halves); no other cell is
touched; and after the whole store-level backward the caller's cell holds
half its old value, for the encoder and decoder alike, with the returned
value agreeing with the functional model run on the halved gradient. -/
theorem C10_inplace_gradient_mutation :
    (∀ (st : TensorStore) (r : Nat),
      (gradOutputPrologue st r).2.1 = r ∧ (gradOutputPrologue st r).2.2 = r ∧
      (gradOutputPrologue st r).1 r = st r * (1/2)) ∧
    (∀ (st : TensorStore) (r i : Nat), i ≠ r → (gradOutputPrologue st r).1 i = st i) ∧
    (∀ (layers : List ReversibleTransformerEncoderLayer) (ctx : EncCtx)
        (st : TensorStore) (r : Nat) (pos : ℚ) (attn_mask : Option ℚ) (g : RNGState),
      (reversibleEncoderBackwardStore layers ctx st r pos attn_mask g).2 r
        = st r * (1/2) ∧
      (reversibleEncoderBackwardStore layers ctx st r pos attn_mask g).1
        = (reversibleEncoderBackward layers ctx (st r) pos attn_mask g).grad_hidden_states) ∧
    (∀ (layers : List ReversibleTransformerDecoderLayer) (ctx : DecCtx)
        (st : TensorStore) (r : Nat) (pos : ℚ) (tgt_mask src_mask : Option ℚ)
        (g : RNGState),
      (reversibleDecoderBackwardStore layers ctx st r pos tgt_mask src_mask g).2.2 r
        = st r * (1/2) ∧
      (reversibleDecoderBackwardStore layers ctx st r pos tgt_mask src_mask g).1
        = (reversibleDecoderBackward layers ctx (st r) pos tgt_mask src_mask g).grad_input) := by
  refine ⟨?_, ?_, ?_, ?_⟩
  · intro st r
    exact ⟨rfl, rfl, by simp [gradOutputPrologue, storeWrite]⟩
  · intro st r i h
    simp [gradOutputPrologue, storeWrite, h]
  · intro layers ctx st r pos attn_mask g
    constructor
    · simp [reversibleEncoderBackwardStore, gradOutputPrologue, storeWrite]
    · simp [reversibleEncoderBackwardStore, reversibleEncoderBackward,
        gradOutputPrologue, storeWrite]
  · intro layers ctx st r pos tgt_mask src_mask g
    constructor
    · simp [reversibleDecoderBackwardStore, gradOutputPrologue, storeWrite]
    · simp [reversibleDecoderBackwardStore, reversibleDecoderBackward,
        gradOutputPrologue, storeWrite]

/-- Witness for C10: the untouched-cell clause at concrete references. -/
theorem C10_inplace_gradient_mutation_witness :
    (5 : Nat) ≠ 2 ∧ (gradOutputPrologue sampleStore 2).1 5 = sampleStore 5 :=
  ⟨by decide, C10_inplace_gradient_mutation.2.1 sampleStore 2 5 (by decide)⟩
